import Mathlib

/-!
Shallow embedding of `cinder/volume/drivers/ibm/storwize_svc/storwize_svc_iscsi.py`
(class `StorwizeSVCISCSIDriver`): the iSCSI connection-lifecycle driver for IBM
Storwize/SVC storage.

Python dicts keyed by strings are embedded as association lists (Python dicts
iterate in insertion order, which association lists preserve).  Optional dict
keys become `Option` fields.  Python exceptions become an explicit error type
returned through `Except`.  Calls into the external helper layer
(`storwize_svc_common`) are embedded as an oracle structure of total functions,
and the side-effecting helper calls made by the driver are recorded in an event
trace returned alongside the result.
-/

namespace StorwizeISCSI

/-- One storage-controller node, as stored in the storage_nodes dict of
`self._state`:
the dict produced by `get_node_info` / `add_iscsi_ip_addrs` with keys
`id`, `name`, `ipv4`, `ipv6`, `iscsi_name`, `IO_group`, `enabled_protocols`. -/
structure StorageNode where
  id : String
  name : String
  ipv4 : List String
  ipv6 : List String
  iscsi_name : String
  io_group : String
  enabled_protocols : List String
deriving Repr, DecidableEq, Inhabited

/-- The caller-supplied connector dict.  The driver only ever tests membership
of the keys `initiator` and `host` and reads `initiator`, so those two keys
suffice; a key is present iff the field is `some`. -/
structure Connector where
  initiator : Option String
  host : Option String
deriving Repr, DecidableEq

/-- The volume dict fields read by the driver: `id`, `name`, `volume_type_id`. -/
structure Volume where
  id : String
  name : String
  volume_type_id : Option String
deriving Repr, DecidableEq

/-- The result of `lsvdisk` / `get_vdisk_attributes`: a loosely-typed dict in
which `preferred_node_id` and `IO_group_id` may be absent (absence raises
`KeyError` in the source). -/
structure VdiskAttrs where
  preferred_node_id : Option String
  io_group_id : Option String
deriving Repr, DecidableEq

/-- The exceptions the driver can raise.  `pyKeyError` and `pyIndexError` are
the uncaught Python `KeyError` / `IndexError` from dict and list indexing. -/
inductive DriverError where
  | volumeDriverException (msg : String)
  | invalidConnectorException (missing : String)
  | volumeBackendAPIException (data : String)
  | pyKeyError (key : String)
  | pyIndexError
deriving Repr, DecidableEq

/-- The configuration options read by the driver. -/
structure Config where
  storwize_svc_iscsi_chap_enabled : Bool
  storwize_svc_multihostmap_enabled : Bool
deriving Repr, DecidableEq

/-- Python truthiness of an optional string (`if chap_secret:` /
`if host_name:`): `None` and the empty string are falsy. -/
def pyTruthy : Option String → Bool
  | none => false
  | some s => s ≠ ""

/-- The external helper layer (`self._helpers` plus `_get_vdisk_params`),
embedded as an oracle of total functions giving the reply of each call. -/
structure Helpers where
  get_vdisk_params_protocol : Option String → String
  get_host_from_connector : Connector → Option String
  create_host : Connector → String
  get_chap_secret_for_host : String → Option String
  add_chap_secret_to_host : String → String
  get_vdisk_attributes : String → Option VdiskAttrs
  map_vol_to_host : String → String → Bool → Nat
  unmap_vol_from_host : String → Option String → Option String
  check_host_mapped_vols : String → List String
  delete_host : String → Unit

/-- Observable side effects of a driver call, in order of occurrence.
`warnChapDisabledSecretExists` and `warnNoPreferredNode` are the two
`LOG.warning` sites; `removeChapSecret` is an event no code path of this
driver ever emits (the driver has no secret-removal call), included so that
"the secret is not removed" is statable as trace non-membership. -/
inductive Event where
  | createHost (c : Connector)
  | addChapSecret (host : String)
  | removeChapSecret (host : String)
  | warnChapDisabledSecretExists
  | mapVolToHost (vol host : String) (multihostmap : Bool)
  | warnNoPreferredNode (vol : String)
  | terminateConnectionCall (volId : String) (c : Connector)
  | unmapVolFromHost (vol : String) (hostArg result : Option String)
  | deleteHost (host : String)
deriving Repr, DecidableEq

/-! ## do_setup (lines 91-126)

The method `do_setup` stores `get_node_info()` into the storage_nodes dict, adds
the iSCSI IPs, then prunes.  The inventory (keyed dict of nodes) is taken here
as the input; the pruning loop and the final non-emptiness check are embedded
faithfully. -/

/-- The per-node body of the pruning loop (lines 107-111): if the node has an
IPv4 or IPv6 address and a non-empty iSCSI name, append `iSCSI` to its enabled
protocols. -/
def markNode (node : StorageNode) : StorageNode :=
  if (node.ipv4.length ≠ 0 ∨ node.ipv6.length ≠ 0) ∧ node.iscsi_name.length ≠ 0 then
    { node with enabled_protocols := node.enabled_protocols ++ ["iSCSI"] }
  else node

/-- The pruning pass of `do_setup` (lines 104-118): mark each node, then
delete every node whose (post-marking) enabled-protocol list is empty. -/
def do_setup_prune (nodes : List (String × StorageNode)) : List (String × StorageNode) :=
  (nodes.map (fun p => (p.1, markNode p.2))).filter
    (fun p => p.2.enabled_protocols.length ≠ 0)

/-- Embeds `do_setup` (lines 91-126) restricted to its node-set effect: prune the
inventory and fail with `VolumeDriverException` when no node remains
(lines 120-124). -/
def do_setup (nodes : List (String × StorageNode)) :
    Except DriverError (List (String × StorageNode)) :=
  let pruned := do_setup_prune nodes
  if pruned.length = 0 then
    .error (.volumeDriverException "do_setup: No configured nodes.")
  else
    .ok pruned

/-- Modelled from the spec: `getNodeInventory` (the external `get_node_info`
helper, whose code is not part of this repository) returns nodes whose
enabled-protocols set is not yet populated — per §3 the set is "populated at
setup time", and the setup code itself is what appends `iSCSI`. -/
def inventoryFresh (nodes : List (String × StorageNode)) : Prop :=
  ∀ p ∈ nodes, "iSCSI" ∉ p.2.enabled_protocols

/-! ## terminate_connection (lines 249-291) -/

/-- The value `terminate_connection` returns: the initial empty dict when the
connector has no `host` key, otherwise the iSCSI empty-data descriptor
(driver_volume_type iscsi with empty data) set on line 266. -/
inductive TermInfo where
  | emptyDict
  | iscsiDescriptor
deriving Repr, DecidableEq

/-- Embeds `terminate_connection` (lines 249-291): resolve the host when the
connector claims one (fatal when resolution fails), unmap the volume letting
the helper infer the host when unknown, and delete the host when it has no
remaining mapped volumes. -/
def terminate_connection (h : Helpers) (volume : Volume) (connector : Connector) :
    List Event × Except DriverError TermInfo :=
  let vol_name := volume.name
  let branch : Except DriverError (TermInfo × Option String) :=
    if connector.host ≠ none then
      match h.get_host_from_connector connector with
      | none => .error (.volumeDriverException
          "terminate_connection: Failed to get host name from connector.")
      | some hn => .ok (.iscsiDescriptor, some hn)
    else
      .ok (.emptyDict, none)
  match branch with
  | .error e => ([], .error e)
  | .ok (info, host_name0) =>
    let host_name := h.unmap_vol_from_host vol_name host_name0
    let ev0 := [Event.unmapVolFromHost vol_name host_name0 host_name]
    match host_name with
    | some hn =>
      if hn ≠ "" then
        if (h.check_host_mapped_vols hn).length = 0 then
          (ev0 ++ [Event.deleteHost hn], .ok info)
        else
          (ev0, .ok info)
      else
        (ev0, .ok info)
    | none => (ev0, .ok info)

/-! ## initialize_connection (lines 136-247) -/

/-- The node-selection loop (lines 190-198): walk the node collection, skip
nodes without the requested protocol, remember the (last) node whose id equals
the preferred node id, and collect in order the nodes of the I/O
group of the volume. -/
def selectNodes (protocol preferred_node io_group : String)
    (nodes : List StorageNode) : Option StorageNode × List StorageNode :=
  nodes.foldl
    (fun acc node =>
      if protocol ∈ node.enabled_protocols then
        ((if node.id = preferred_node then some node else acc.1),
         (if node.io_group = io_group then acc.2 ++ [node] else acc.2))
      else acc)
    (none, [])

/-- Python `xs[0]`: the head, or `IndexError` on an empty list. -/
def listIndexZero (xs : List String) : Except DriverError String :=
  match xs with
  | [] => .error .pyIndexError
  | a :: _ => .ok a

/-- Address selection from the chosen node (lines 218-221): the first IPv4
address if the node has one, otherwise its first IPv6 address (an unguarded
`[0]` that raises `IndexError` when both lists are empty). -/
def select_ipaddr (node : StorageNode) : Except DriverError String :=
  if node.ipv4.length ≠ 0 then listIndexZero node.ipv4
  else listIndexZero node.ipv6

/-- The `properties` dict assembled on lines 213-231.  Keys set only in the
CHAP branch are `Option` fields, `none` when absent. -/
structure ConnProperties where
  target_discovered : Bool
  target_lun : Nat
  volume_id : String
  target_portal : String
  target_iqn : String
  auth_method : Option String
  auth_username : Option String
  auth_password : Option String
  discovery_auth_method : Option String
  discovery_auth_username : Option String
  discovery_auth_password : Option String
deriving Repr, DecidableEq

/-- The dict returned by `initialize_connection` (line 247). -/
structure ConnInfo where
  driver_volume_type : String
  data : ConnProperties
deriving Repr, DecidableEq

/-- The body of the `try` statement of `initialize_connection`
(lines 188-231): node selection, empty-I/O-group failure, preferred-node
fallback, properties assembly.  Errors escaping this block are the ones the
`except` handler (lines 233-240) rolls back. -/
def init_try_block (protocol preferred_node io_group : String)
    (stateNodes : List StorageNode) (lun_id : Nat) (volume : Volume)
    (connector : Connector) (chap_secret : Option String) (volume_name : String) :
    List Event × Except DriverError ConnProperties :=
  let sel := selectNodes protocol preferred_node io_group stateNodes
  if sel.2.length = 0 then
    ([], .error (.volumeBackendAPIException
      ("initialize_connection: No node found in I/O group " ++ io_group ++
       " for volume " ++ volume_name ++ ".")))
  else
    -- `if not preferred_node_entry:` — node dicts are non-empty, hence falsy
    -- exactly when the variable is still None
    let step :=
      match sel.1 with
      | some entry => (entry, ([] : List Event))
      | none => (sel.2.headD default, [Event.warnNoPreferredNode volume_name])
    let entry := step.1
    let ev1 := step.2
    match select_ipaddr entry with
    | .error e => (ev1, .error e)
    | .ok ipaddr =>
      let base : ConnProperties :=
        { target_discovered := false
          target_lun := lun_id
          volume_id := volume.id
          target_portal := ipaddr ++ ":3260"
          target_iqn := entry.iscsi_name
          auth_method := none
          auth_username := none
          auth_password := none
          discovery_auth_method := none
          discovery_auth_username := none
          discovery_auth_password := none }
      if pyTruthy chap_secret then
        match connector.initiator with
        | none => (ev1, .error (.pyKeyError "initiator"))
        | some ini =>
          (ev1, .ok { base with
            auth_method := some "CHAP"
            auth_username := some ini
            auth_password := chap_secret
            discovery_auth_method := some "CHAP"
            discovery_auth_username := some ini
            discovery_auth_password := chap_secret })
      else
        (ev1, .ok base)

/-- Host resolution (lines 154-158): reuse the controller-side host for this
connector, or create a new one when absent.  Returns the host name and the
emitted events. -/
def resolve_host_step (h : Helpers) (connector : Connector) :
    String × List Event :=
  match h.get_host_from_connector connector with
  | some hn => (hn, [])
  | none => (h.create_host connector, [Event.createHost connector])

/-- CHAP negotiation (lines 160-166): with CHAP enabled and no existing
secret, install one; with CHAP disabled and a (truthy) existing secret, warn;
otherwise keep the queried secret unchanged.  Returns the `chap_secret` local
variable and the emitted events. -/
def chap_step (cfg : Config) (h : Helpers) (host_name : String) :
    Option String × List Event :=
  let secret0 := h.get_chap_secret_for_host host_name
  let chap_enabled := cfg.storwize_svc_iscsi_chap_enabled
  if chap_enabled ∧ secret0 = none then
    (some (h.add_chap_secret_to_host host_name), [Event.addChapSecret host_name])
  else if ¬chap_enabled = true ∧ pyTruthy secret0 then
    (secret0, [Event.warnChapDisabledSecretExists])
  else
    (secret0, [])

/-- Embeds `initialize_connection` (lines 136-247): resolve or create the host,
negotiate the CHAP secret, fetch volume attributes, map the volume, select
the serving node and assemble the connection properties; an error escaping
the selection/assembly `try` triggers the compensating `terminate_connection`
via `excutils.save_and_reraise_exception` (the original error is re-raised
when the rollback completes; a rollback error replaces it). -/
def initialize_connection (cfg : Config) (h : Helpers)
    (stateNodes : List (String × StorageNode)) (volume : Volume)
    (connector : Connector) : List Event × Except DriverError ConnInfo :=
  let protocol := h.get_vdisk_params_protocol volume.volume_type_id
  let volume_name := volume.name
  -- lines 154-158: host resolution, creating the host when absent
  let host_name := (resolve_host_step h connector).1
  let ev1 := (resolve_host_step h connector).2
  -- lines 160-166: CHAP negotiation
  let chap_secret := (chap_step cfg h host_name).1
  let ev2 := (chap_step cfg h host_name).2
  -- lines 168-173: fetch volume attributes, fatal when absent
  match h.get_vdisk_attributes volume_name with
  | none =>
    (ev1 ++ ev2, .error (.volumeDriverException
      ("initialize_connection: Failed to get attributes for volume " ++
       volume_name ++ ".")))
  | some attrs =>
    -- lines 175-177: the volume-to-host mapping is created here
    let multihostmap := cfg.storwize_svc_multihostmap_enabled
    let lun_id := h.map_vol_to_host volume_name host_name multihostmap
    let ev3 := ev1 ++ ev2 ++ [Event.mapVolToHost volume_name host_name multihostmap]
    -- lines 178-186: KeyError on a missing attribute column, caught and
    -- re-raised as VolumeBackendAPIException, OUTSIDE the rollback try
    match attrs.preferred_node_id with
    | none =>
      (ev3, .error (.volumeBackendAPIException
        ("initialize_connection: Missing volume attribute for volume " ++
         volume_name ++ ".")))
    | some preferred_node =>
      match attrs.io_group_id with
      | none =>
        (ev3, .error (.volumeBackendAPIException
          ("initialize_connection: Missing volume attribute for volume " ++
           volume_name ++ ".")))
      | some io_group =>
        -- lines 188-240: the try with the compensating rollback handler
        let tryStep := init_try_block protocol preferred_node io_group
          (stateNodes.map Prod.snd) lun_id volume connector chap_secret volume_name
        match tryStep.2 with
        | .ok props =>
          (ev3 ++ tryStep.1, .ok { driver_volume_type := "iscsi", data := props })
        | .error e =>
          let rollback := terminate_connection h volume connector
          let evAll := ev3 ++ tryStep.1 ++
            [Event.terminateConnectionCall volume.id connector] ++ rollback.1
          match rollback.2 with
          | .ok _ => (evAll, .error e)
          | .error e2 => (evAll, .error e2)

/-! ## validate_connector (lines 128-134) -/

/-- Embeds `validate_connector`: fail with `InvalidConnectorException` naming
the missing `initiator` field when the connector has no `initiator` key. -/
def validate_connector (connector : Connector) : Except DriverError Unit :=
  if connector.initiator = none then
    .error (.invalidConnectorException "initiator")
  else
    .ok ()

/-! ## Concrete fixtures

A one-node backend used to instantiate the theorems on concrete inputs. -/

/-- An iSCSI-capable node: id `1`, I/O group `0`, one IPv4 address. -/
def node1 : StorageNode where
  id := "1"
  name := "node1"
  ipv4 := ["10.0.0.5"]
  ipv6 := []
  iscsi_name := "iqn.n1"
  io_group := "0"
  enabled_protocols := ["iSCSI"]

/-- The same node as reported by the raw inventory, before setup populates
its enabled-protocol list. -/
def node1raw : StorageNode where
  id := "1"
  name := "node1"
  ipv4 := ["10.0.0.5"]
  ipv6 := []
  iscsi_name := "iqn.n1"
  io_group := "0"
  enabled_protocols := []

/-- A partially configured node: no IP addresses, so setup prunes it. -/
def nodeNoAddr : StorageNode where
  id := "2"
  name := "node2"
  ipv4 := []
  ipv6 := []
  iscsi_name := "iqn.n2"
  io_group := "0"
  enabled_protocols := []

/-- A helper oracle for a healthy backend: the connector resolves to host
`h1`, which carries CHAP secret `s`; volume `V1` has preferred node `1` in
I/O group `0`; mapping yields LUN 7; `h1` has no remaining mapped volumes. -/
def helpers1 : Helpers where
  get_vdisk_params_protocol := fun _ => "iSCSI"
  get_host_from_connector := fun _ => some "h1"
  create_host := fun _ => "h1"
  get_chap_secret_for_host := fun _ => some "s"
  add_chap_secret_to_host := fun _ => "newsecret"
  get_vdisk_attributes := fun _ => some ⟨some "1", some "0"⟩
  map_vol_to_host := fun _ _ _ => 7
  unmap_vol_from_host := fun _ x => match x with | some hn => some hn | none => some "h1"
  check_host_mapped_vols := fun _ => []
  delete_host := fun _ => ()

/-- Like `helpers1`, but `lsvdisk` reports no `preferred_node_id` column. -/
def helpersNoPrefAttr : Helpers :=
  { helpers1 with get_vdisk_attributes := fun _ => some ⟨none, some "0"⟩ }

/-- Like `helpers1`, but the volume lives in I/O group `9`, which no node of
the fixture node set belongs to. -/
def helpersGroup9 : Helpers :=
  { helpers1 with get_vdisk_attributes := fun _ => some ⟨some "1", some "9"⟩ }

/-- Configuration with CHAP enabled. -/
def cfgChapOn : Config where
  storwize_svc_iscsi_chap_enabled := true
  storwize_svc_multihostmap_enabled := true

/-- Configuration with CHAP disabled. -/
def cfgChapOff : Config where
  storwize_svc_iscsi_chap_enabled := false
  storwize_svc_multihostmap_enabled := true

/-- A test volume. -/
def vol1 : Volume where
  id := "vid"
  name := "V1"
  volume_type_id := none

/-- A connector with an initiator and no `host` key. -/
def conn1 : Connector where
  initiator := some "iqn.test"
  host := none

/-- The connector `conn1` with a `host` key. -/
def conn1host : Connector where
  initiator := some "iqn.test"
  host := some "myhost"

/-! ## Theorems -/

/-- Claim C9: a connector that lacks an initiator field makes
`validate_connector` fail with the missing-connector-field error
(`InvalidConnectorException` on `initiator`), and a connector that contains
an initiator field passes validation. -/
theorem claim_C9_validate_connector (c : Connector) :
    (c.initiator = none →
      validate_connector c = .error (.invalidConnectorException "initiator")) ∧
    (c.initiator ≠ none → validate_connector c = .ok ()) := by
  constructor <;> intro h <;> simp [validate_connector, h]

/-- Witness for claim C9 at two concrete connectors. -/
theorem claim_C9_validate_connector_witness :
    validate_connector { initiator := none, host := none } =
      .error (.invalidConnectorException "initiator") ∧
    validate_connector conn1 = .ok () :=
  ⟨(claim_C9_validate_connector { initiator := none, host := none }).1 rfl,
   (claim_C9_validate_connector conn1).2 (by simp [conn1])⟩

/-- Claim C10: when pruning removes every node, `do_setup` fails with the
driver error instead of completing, and therefore every successful
`do_setup` returns a non-empty active storage-node set. -/
theorem claim_C10_do_setup_nonempty :
    (∀ nodes, do_setup_prune nodes = [] →
      do_setup nodes =
        .error (.volumeDriverException "do_setup: No configured nodes.")) ∧
    (∀ nodes res, do_setup nodes = .ok res → res ≠ []) := by
  constructor
  · intro nodes hempty
    simp [do_setup, hempty]
  · intro nodes res hok
    unfold do_setup at hok
    by_cases hlen : (do_setup_prune nodes).length = 0
    · simp [hlen] at hok
    · simp [hlen] at hok
      intro hres
      exact hlen (by rw [hok, hres]; rfl)

/-- Witness for claim C10: the empty inventory makes `do_setup` fail, and a
successful `do_setup` on a one-node inventory returns a non-empty set. -/
theorem claim_C10_do_setup_nonempty_witness :
    do_setup ([] : List (String × StorageNode)) =
      .error (.volumeDriverException "do_setup: No configured nodes.") ∧
    ([("1", markNode node1raw)] : List (String × StorageNode)) ≠ [] :=
  ⟨claim_C10_do_setup_nonempty.1 [] rfl,
   claim_C10_do_setup_nonempty.2 [("1", node1raw)] [("1", markNode node1raw)] rfl⟩

/-- Claim C4: after setup-time pruning, every retained node has at least one
enabled protocol, and every retained node whose enabled protocols include
iSCSI has an IPv4 or IPv6 address and a non-empty iSCSI name.  The inventory
is assumed fresh (`iSCSI` not pre-listed by the external inventory helper,
per the setup-time population of the protocol set stated in the spec). -/
theorem claim_C4_prune_invariant (nodes : List (String × StorageNode))
    (hfresh : inventoryFresh nodes) :
    ∀ p ∈ do_setup_prune nodes,
      p.2.enabled_protocols ≠ [] ∧
      ("iSCSI" ∈ p.2.enabled_protocols →
        (p.2.ipv4 ≠ [] ∨ p.2.ipv6 ≠ []) ∧ p.2.iscsi_name ≠ "") := by
  intro p hp
  unfold do_setup_prune at hp
  simp only [List.mem_filter, List.mem_map, decide_eq_true_eq] at hp
  obtain ⟨⟨q, hq, hpq⟩, hlen⟩ := hp
  subst hpq
  constructor
  · intro hnil
    rw [hnil] at hlen
    exact hlen rfl
  · intro hiscsi
    by_cases hcond : (q.2.ipv4.length ≠ 0 ∨ q.2.ipv6.length ≠ 0) ∧
        q.2.iscsi_name.length ≠ 0
    · simp only [markNode, if_pos hcond]
      refine ⟨?_, ?_⟩
      · rcases hcond.1 with h4 | h6
        · exact Or.inl (fun hc => h4 (by rw [hc]; rfl))
        · exact Or.inr (fun hc => h6 (by rw [hc]; rfl))
      · intro hc
        exact hcond.2 (by rw [hc]; rfl)
    · exfalso
      simp only [markNode, if_neg hcond] at hiscsi
      exact hfresh q hq hiscsi

/-- Witness for claim C4 on a two-node inventory (one healthy node, one node
without addresses). -/
theorem claim_C4_prune_invariant_witness :
    inventoryFresh [("1", node1raw), ("2", nodeNoAddr)] ∧
    ∀ p ∈ do_setup_prune [("1", node1raw), ("2", nodeNoAddr)],
      p.2.enabled_protocols ≠ [] ∧
      ("iSCSI" ∈ p.2.enabled_protocols →
        (p.2.ipv4 ≠ [] ∨ p.2.ipv6 ≠ []) ∧ p.2.iscsi_name ≠ "") :=
  ⟨by unfold inventoryFresh; decide,
   claim_C4_prune_invariant _ (by unfold inventoryFresh; decide)⟩

/-- Address selection (lines 218-221) on a node with at least one address:
the first IPv4 address when there is one, otherwise the first IPv6 address. -/
theorem select_ipaddr_of_has_addr (node : StorageNode)
    (h : node.ipv4 ≠ [] ∨ node.ipv6 ≠ []) :
    select_ipaddr node =
      .ok (if node.ipv4 ≠ [] then node.ipv4.headD "" else node.ipv6.headD "") := by
  by_cases h4 : node.ipv4 = []
  · have h6 : node.ipv6 ≠ [] := by
      rcases h with h4' | h6'
      · exact absurd h4 h4'
      · exact h6'
    cases hv : node.ipv6 with
    | nil => exact absurd hv h6
    | cons a l => simp [select_ipaddr, listIndexZero, h4, hv]
  · cases hv : node.ipv4 with
    | nil => exact absurd hv h4
    | cons a l => simp [select_ipaddr, listIndexZero, hv]

/-- Claim C7: for a chosen node with at least one IP address (the setup-time
pruning invariant for iSCSI-enabled nodes), address selection never reaches
the out-of-bounds indexing branch, and yields the first IPv4 address when
one exists, otherwise the first IPv6 address. -/
theorem claim_C7_address_selection (node : StorageNode)
    (h : node.ipv4 ≠ [] ∨ node.ipv6 ≠ []) :
    select_ipaddr node ≠ .error .pyIndexError ∧
    select_ipaddr node =
      .ok (if node.ipv4 ≠ [] then node.ipv4.headD "" else node.ipv6.headD "") := by
  have heq := select_ipaddr_of_has_addr node h
  exact ⟨by simp [heq], heq⟩

/-- Witness for claim C7 on the fixture node. -/
theorem claim_C7_address_selection_witness :
    (node1.ipv4 ≠ [] ∨ node1.ipv6 ≠ []) ∧ select_ipaddr node1 = .ok "10.0.0.5" := by
  refine ⟨Or.inl (by decide), ?_⟩
  have h := (claim_C7_address_selection node1 (Or.inl (by decide))).2
  simpa [node1] using h

/-- Claim C3 counterexample: a successful `terminate_connection` whose
connector has no `host` key returns the initial empty dict, not the
`iscsi`-typed empty-data descriptor. -/
theorem claim_C3_counterexample :
    terminate_connection helpers1 vol1 conn1 =
      ([Event.unmapVolFromHost "V1" none (some "h1"), Event.deleteHost "h1"],
       .ok TermInfo.emptyDict) ∧
    TermInfo.emptyDict ≠ TermInfo.iscsiDescriptor :=
  ⟨rfl, by simp⟩

/-- Claim C3 (amended): a successful `terminate_connection` returns the
`iscsi`-typed empty-data descriptor when the connector contains a `host`
key, and the plain empty dict when it does not. -/
theorem claim_C3_terminate_return_shape (h : Helpers) (volume : Volume)
    (connector : Connector) (tr : List Event) (info : TermInfo)
    (hok : terminate_connection h volume connector = (tr, .ok info)) :
    (connector.host ≠ none → info = .iscsiDescriptor) ∧
    (connector.host = none → info = .emptyDict) := by
  by_cases hh : connector.host = none
  · refine ⟨fun hc => absurd hh hc, fun _ => ?_⟩
    simp only [terminate_connection, hh, ne_eq, not_true_eq_false, if_false] at hok
    split at hok <;> try split at hok
    all_goals try split at hok
    all_goals simp_all
  · refine ⟨fun _ => ?_, fun hc => absurd hc hh⟩
    cases hg : h.get_host_from_connector connector with
    | none =>
      simp only [terminate_connection, ne_eq, hh, not_false_eq_true, if_true, hg] at hok
      simp at hok
    | some hn0 =>
      simp only [terminate_connection, ne_eq, hh, not_false_eq_true, if_true, hg] at hok
      split at hok <;> try split at hok
      all_goals try split at hok
      all_goals simp_all

/-- Witness for amended claim C3: a concrete call with a `host` key in the
connector returns the iSCSI descriptor. -/
theorem claim_C3_terminate_return_shape_witness :
    (terminate_connection helpers1 vol1 conn1host =
      ([Event.unmapVolFromHost "V1" (some "h1") (some "h1"), Event.deleteHost "h1"],
       .ok TermInfo.iscsiDescriptor)) ∧
    TermInfo.iscsiDescriptor = TermInfo.iscsiDescriptor := by
  refine ⟨rfl, ?_⟩
  exact (claim_C3_terminate_return_shape helpers1 vol1 conn1host _ _ rfl).1
    (by simp [conn1host])

/-- Claim C8: in a successful `terminate_connection` whose unmap step
resolved an affected host (a truthy host name), the host object is deleted
exactly when it has zero remaining volume mappings. -/
theorem claim_C8_host_reclamation (h : Helpers) (volume : Volume)
    (connector : Connector) (tr : List Event) (info : TermInfo)
    (hostArg : Option String) (hn : String)
    (hok : terminate_connection h volume connector = (tr, .ok info))
    (hmem : Event.unmapVolFromHost volume.name hostArg (some hn) ∈ tr)
    (hne : hn ≠ "") :
    (h.check_host_mapped_vols hn = [] → Event.deleteHost hn ∈ tr) ∧
    (h.check_host_mapped_vols hn ≠ [] → Event.deleteHost hn ∉ tr) := by
  by_cases hh : connector.host = none
  · simp only [terminate_connection, hh, ne_eq, not_true_eq_false, if_false] at hok
    split at hok <;> try split at hok
    all_goals try split at hok
    all_goals simp only [Prod.mk.injEq, Except.ok.injEq] at hok
    all_goals obtain ⟨htr, -⟩ := hok
    all_goals subst htr
    all_goals simp_all
  · cases hg : h.get_host_from_connector connector with
    | none =>
      simp only [terminate_connection, ne_eq, hh, not_false_eq_true, if_true, hg] at hok
      simp at hok
    | some hn0 =>
      simp only [terminate_connection, ne_eq, hh, not_false_eq_true, if_true, hg] at hok
      split at hok <;> try split at hok
      all_goals try split at hok
      all_goals simp only [Prod.mk.injEq, Except.ok.injEq] at hok
      all_goals obtain ⟨htr, -⟩ := hok
      all_goals subst htr
      all_goals simp_all

/-- Witness for claim C8: on the fixture backend (no remaining mappings for
host `h1`) the host is deleted. -/
theorem claim_C8_host_reclamation_witness :
    Event.deleteHost "h1" ∈ (terminate_connection helpers1 vol1 conn1).1 :=
  (claim_C8_host_reclamation helpers1 vol1 conn1
      [Event.unmapVolFromHost "V1" none (some "h1"), Event.deleteHost "h1"]
      TermInfo.emptyDict none "h1" rfl (by simp [vol1]) (by simp)).1 rfl

/-- Claim C5: with the volume attributes present, when the protocol-filtered
candidate set for the I/O group of the volume is empty, `initialize_connection`
fails with the no-serving-node `VolumeBackendAPIException` (assuming the
compensating rollback itself completes, so that the original error is the
one re-raised). -/
theorem claim_C5_no_serving_node (cfg : Config) (h : Helpers)
    (stateNodes : List (String × StorageNode)) (volume : Volume)
    (connector : Connector) (attrs : VdiskAttrs) (p g : String) (ti : TermInfo)
    (hattrs : h.get_vdisk_attributes volume.name = some attrs)
    (hp : attrs.preferred_node_id = some p)
    (hg : attrs.io_group_id = some g)
    (hsel : (selectNodes (h.get_vdisk_params_protocol volume.volume_type_id) p g
      (stateNodes.map Prod.snd)).2 = [])
    (hterm : (terminate_connection h volume connector).2 = .ok ti) :
    (initialize_connection cfg h stateNodes volume connector).2 =
      .error (.volumeBackendAPIException
        ("initialize_connection: No node found in I/O group " ++ g ++
         " for volume " ++ volume.name ++ ".")) := by
  simp only [initialize_connection, hattrs, hp, hg, init_try_block, hsel,
    List.length_nil]
  try simp only [if_pos rfl]
  rcases hterm2 : (terminate_connection h volume connector).2 with e2 | ti2
  · rw [hterm] at hterm2
    exact absurd hterm2 (by simp)
  · simp [hterm2]

/-- Witness for claim C5: the fixture volume lives in I/O group `9` while
the only node is in group `0`. -/
theorem claim_C5_no_serving_node_witness :
    (initialize_connection cfgChapOn helpersGroup9 [("1", node1)] vol1 conn1).2 =
      .error (.volumeBackendAPIException
        ("initialize_connection: No node found in I/O group " ++ "9" ++
         " for volume " ++ vol1.name ++ ".")) :=
  claim_C5_no_serving_node cfgChapOn helpersGroup9 [("1", node1)] vol1 conn1
    ⟨some "1", some "9"⟩ "1" "9" TermInfo.emptyDict rfl rfl rfl rfl rfl

/-- Claim C6: when no protocol-enabled node matches the preferred node id
but the I/O-group candidate set is non-empty, the selection phase falls back
to the first candidate node, logs the degraded condition, and succeeds
(given an address on that candidate and, when a truthy CHAP secret is to be
attached, an initiator in the connector). -/
theorem claim_C6_preferred_fallback (protocol preferred_node io_group : String)
    (stateNodes : List StorageNode) (lun_id : Nat) (volume : Volume)
    (connector : Connector) (chap_secret : Option String) (volume_name : String)
    (c : StorageNode) (rest : List StorageNode)
    (hpref : (selectNodes protocol preferred_node io_group stateNodes).1 = none)
    (hcand : (selectNodes protocol preferred_node io_group stateNodes).2 = c :: rest)
    (haddr : c.ipv4 ≠ [] ∨ c.ipv6 ≠ [])
    (hini : pyTruthy chap_secret = true → connector.initiator ≠ none) :
    ∃ props, init_try_block protocol preferred_node io_group stateNodes lun_id
        volume connector chap_secret volume_name =
        ([Event.warnNoPreferredNode volume_name], .ok props) ∧
      props.target_iqn = c.iscsi_name ∧
      props.target_portal =
        (if c.ipv4 ≠ [] then c.ipv4.headD "" else c.ipv6.headD "") ++ ":3260" := by
  simp only [init_try_block, hpref, hcand, List.length_cons, List.headD_cons,
    Nat.succ_ne_zero, if_neg, select_ipaddr_of_has_addr c haddr]
  by_cases hch : pyTruthy chap_secret
  · obtain ⟨ini, hini2⟩ := Option.ne_none_iff_exists'.mp (hini hch)
    simp [hch, hini2]
  · simp [hch]

/-- Witness for claim C6: preferred node `9` is absent, the single node of
group `0` serves as fallback. -/
theorem claim_C6_preferred_fallback_witness :
    (selectNodes "iSCSI" "9" "0" [node1]).1 = none ∧
    (init_try_block "iSCSI" "9" "0" [node1] 7 vol1 conn1 none "V1").1 =
      [Event.warnNoPreferredNode "V1"] := by
  obtain ⟨props, heq, -, -⟩ := claim_C6_preferred_fallback "iSCSI" "9" "0" [node1] 7
    vol1 conn1 none "V1" node1 [] rfl rfl (Or.inl (by simp [node1]))
    (by intro hc; simp [pyTruthy] at hc)
  exact ⟨rfl, by rw [heq]⟩

/-- Claim C1 counterexample: when `lsvdisk` omits the `preferred_node_id`
column, the failure is raised after the volume-to-host mapping was created
(the `mapVolToHost` event is in the trace) yet no compensating
`terminate_connection` is invoked before the error propagates — the
missing-attribute re-raise sits outside the rollback `try`. -/
theorem claim_C1_counterexample :
    initialize_connection cfgChapOn helpersNoPrefAttr [("1", node1)] vol1 conn1 =
      ([Event.mapVolToHost "V1" "h1" true],
       .error (.volumeBackendAPIException
         "initialize_connection: Missing volume attribute for volume V1.")) ∧
    Event.terminateConnectionCall vol1.id conn1 ∉ [Event.mapVolToHost "V1" "h1" true] :=
  ⟨rfl, by simp⟩

/-- Claim C1 (amended): failures raised inside the node-selection and
property-assembly `try` block do trigger a compensating
`terminate_connection` for the same (volume, connector) pair, and when that
rollback completes the original error is the one propagated; a failure
raised by the attribute-column extraction — which also happens after the
mapping was created — propagates without any rollback. -/
theorem claim_C1_rollback_on_selection_failure (cfg : Config) (h : Helpers)
    (stateNodes : List (String × StorageNode)) (volume : Volume)
    (connector : Connector) (attrs : VdiskAttrs) (p g : String) (e : DriverError)
    (hattrs : h.get_vdisk_attributes volume.name = some attrs)
    (hp : attrs.preferred_node_id = some p)
    (hg : attrs.io_group_id = some g)
    (htry : (init_try_block (h.get_vdisk_params_protocol volume.volume_type_id) p g
        (stateNodes.map Prod.snd)
        (h.map_vol_to_host volume.name (resolve_host_step h connector).1
          cfg.storwize_svc_multihostmap_enabled)
        volume connector (chap_step cfg h (resolve_host_step h connector).1).1
        volume.name).2 = .error e) :
    Event.terminateConnectionCall volume.id connector ∈
      (initialize_connection cfg h stateNodes volume connector).1 ∧
    Event.mapVolToHost volume.name (resolve_host_step h connector).1
        cfg.storwize_svc_multihostmap_enabled ∈
      (initialize_connection cfg h stateNodes volume connector).1 ∧
    (∀ ti, (terminate_connection h volume connector).2 = .ok ti →
      (initialize_connection cfg h stateNodes volume connector).2 = .error e) := by
  refine ⟨?_, ?_, ?_⟩
  · simp only [initialize_connection, hattrs, hp, hg, htry]
    rcases (terminate_connection h volume connector).2 with e2 | ti2 <;> simp
  · simp only [initialize_connection, hattrs, hp, hg, htry]
    rcases (terminate_connection h volume connector).2 with e2 | ti2 <;> simp
  · intro ti hti
    simp only [initialize_connection, hattrs, hp, hg, htry, hti]

/-- Witness for amended claim C1: a selection failure (volume in I/O group
`9`, nodes only in group `0`) triggers the rollback call and the original
no-serving-node error is propagated. -/
theorem claim_C1_rollback_on_selection_failure_witness :
    Event.terminateConnectionCall "vid" conn1 ∈
      (initialize_connection cfgChapOn helpersGroup9 [("1", node1)] vol1 conn1).1 ∧
    (initialize_connection cfgChapOn helpersGroup9 [("1", node1)] vol1 conn1).2 =
      .error (.volumeBackendAPIException
        ("initialize_connection: No node found in I/O group " ++ "9" ++
         " for volume " ++ "V1" ++ ".")) := by
  obtain ⟨h1, -, h3⟩ := claim_C1_rollback_on_selection_failure cfgChapOn helpersGroup9
    [("1", node1)] vol1 conn1 ⟨some "1", some "9"⟩ "1" "9"
    (.volumeBackendAPIException
      ("initialize_connection: No node found in I/O group " ++ "9" ++
       " for volume " ++ "V1" ++ ".")) rfl rfl rfl rfl
  exact ⟨h1, h3 TermInfo.emptyDict rfl⟩

/-- Host resolution emits no event (host found) or exactly the host-creation
event. -/
theorem resolve_host_step_events (h : Helpers) (connector : Connector) :
    (resolve_host_step h connector).2 = [] ∨
    (resolve_host_step h connector).2 = [Event.createHost connector] := by
  unfold resolve_host_step
  cases h.get_host_from_connector connector <;> simp

/-- CHAP negotiation with CHAP disabled and a non-empty existing secret:
the secret is kept unchanged and the policy-mismatch warning is the only
event. -/
theorem chap_step_disabled_existing (cfg : Config) (h : Helpers) (hostn s : String)
    (hchap : cfg.storwize_svc_iscsi_chap_enabled = false)
    (hs : h.get_chap_secret_for_host hostn = some s) (hsne : s ≠ "") :
    chap_step cfg h hostn = (some s, [Event.warnChapDisabledSecretExists]) := by
  simp [chap_step, hchap, hs, pyTruthy, hsne]

/-- A successful selection/assembly block attaches the CHAP auth fields
exactly when the negotiated secret is truthy (in which case they carry that
secret), and emits at most the degraded-selection warning. -/
theorem init_try_block_ok (protocol p g : String) (ns : List StorageNode)
    (lun : Nat) (volume : Volume) (connector : Connector) (secret : Option String)
    (vn : String) (evs : List Event) (props : ConnProperties)
    (hok : init_try_block protocol p g ns lun volume connector secret vn =
      (evs, .ok props)) :
    props.auth_method = (if pyTruthy secret then some "CHAP" else none) ∧
    props.auth_password = (if pyTruthy secret then secret else none) ∧
    props.discovery_auth_password = (if pyTruthy secret then secret else none) ∧
    (evs = [] ∨ evs = [Event.warnNoPreferredNode vn]) := by
  simp only [init_try_block] at hok
  split at hok
  · simp at hok
  · split at hok
    · simp at hok
    · split at hok
      · split at hok
        · simp at hok
        · simp only [Prod.mk.injEq, Except.ok.injEq] at hok
          obtain ⟨hevs, hprops⟩ := hok
          subst hprops
          refine ⟨by simp_all, by simp_all, by simp_all, ?_⟩
          rcases hpref : (selectNodes protocol p g ns).1 with _ | entry <;>
            simp only [hpref] at hevs <;> subst hevs <;> simp
      · simp only [Prod.mk.injEq, Except.ok.injEq] at hok
        obtain ⟨hevs, hprops⟩ := hok
        subst hprops
        refine ⟨by simp_all, by simp_all, by simp_all, ?_⟩
        rcases hpref : (selectNodes protocol p g ns).1 with _ | entry <;>
          simp only [hpref] at hevs <;> subst hevs <;> simp

/-- Decomposition of a successful `initialize_connection` run: the volume
attributes were present with both columns, the selection/assembly block
succeeded, the returned dict is `iscsi`-typed with the properties the block
assembled, and the trace is resolution events, CHAP events, the mapping
event, then the events of the block. -/
theorem initialize_connection_ok_decomp (cfg : Config) (h : Helpers)
    (stateNodes : List (String × StorageNode)) (volume : Volume)
    (connector : Connector) (tr : List Event) (ci : ConnInfo)
    (hok : initialize_connection cfg h stateNodes volume connector = (tr, .ok ci)) :
    ∃ attrs p g evs props,
      h.get_vdisk_attributes volume.name = some attrs ∧
      attrs.preferred_node_id = some p ∧ attrs.io_group_id = some g ∧
      init_try_block (h.get_vdisk_params_protocol volume.volume_type_id) p g
        (stateNodes.map Prod.snd)
        (h.map_vol_to_host volume.name (resolve_host_step h connector).1
          cfg.storwize_svc_multihostmap_enabled)
        volume connector (chap_step cfg h (resolve_host_step h connector).1).1
        volume.name = (evs, .ok props) ∧
      ci = { driver_volume_type := "iscsi", data := props } ∧
      tr = (resolve_host_step h connector).2 ++
        (chap_step cfg h (resolve_host_step h connector).1).2 ++
        [Event.mapVolToHost volume.name (resolve_host_step h connector).1
          cfg.storwize_svc_multihostmap_enabled] ++ evs := by
  cases hv : h.get_vdisk_attributes volume.name with
  | none =>
    simp only [initialize_connection, hv] at hok
    simp at hok
  | some attrs =>
    cases hpn : attrs.preferred_node_id with
    | none =>
      simp only [initialize_connection, hv, hpn] at hok
      simp at hok
    | some p =>
      cases hgn : attrs.io_group_id with
      | none =>
        simp only [initialize_connection, hv, hpn, hgn] at hok
        simp at hok
      | some g =>
        cases ht : init_try_block (h.get_vdisk_params_protocol volume.volume_type_id)
          p g (stateNodes.map Prod.snd)
          (h.map_vol_to_host volume.name (resolve_host_step h connector).1
            cfg.storwize_svc_multihostmap_enabled)
          volume connector (chap_step cfg h (resolve_host_step h connector).1).1
          volume.name with
        | mk evs res =>
          cases res with
          | error e =>
            simp only [initialize_connection, hv, hpn, hgn, ht] at hok
            rcases hr : (terminate_connection h volume connector).2 with e2 | ti <;>
              simp [hr] at hok
          | ok props =>
            simp only [initialize_connection, hv, hpn, hgn, ht] at hok
            simp only [Prod.mk.injEq, Except.ok.injEq] at hok
            obtain ⟨htr, hci⟩ := hok
            exact ⟨attrs, p, g, evs, props, rfl, hpn, hgn, ht, hci.symm, htr.symm⟩

/-- The connection info returned by the disabled-CHAP fixture run: CHAP
credentials from the pre-existing secret `s` are attached. -/
def ciC2 : ConnInfo where
  driver_volume_type := "iscsi"
  data := {
    target_discovered := false
    target_lun := 7
    volume_id := "vid"
    target_portal := "10.0.0.5:3260"
    target_iqn := "iqn.n1"
    auth_method := some "CHAP"
    auth_username := some "iqn.test"
    auth_password := some "s"
    discovery_auth_method := some "CHAP"
    discovery_auth_username := some "iqn.test"
    discovery_auth_password := some "s" }

/-- Claim C2 counterexample: with CHAP disabled in configuration and an
existing secret `s` on the resolved host, `initialize_connection` does
attach the CHAP credentials (method, username, password and discovery
variants) to the returned connection properties, contradicting the claim
that disabled-CHAP calls never attach credentials. -/
theorem claim_C2_counterexample :
    cfgChapOff.storwize_svc_iscsi_chap_enabled = false ∧
    helpers1.get_chap_secret_for_host "h1" = some "s" ∧
    (initialize_connection cfgChapOff helpers1 [("1", node1)] vol1 conn1).2 =
      .ok ciC2 ∧
    ciC2.data.auth_method = some "CHAP" ∧
    ciC2.data.auth_password = some "s" :=
  ⟨rfl, rfl, rfl, rfl, rfl⟩

/-- Claim C2 (amended): with CHAP disabled and a non-empty secret already on
the resolved host, a successful `initialize_connection` emits the
policy-mismatch warning, never installs or removes a secret, and attaches
CHAP credentials carrying the existing secret to the returned connection
properties (the code attaches credentials whenever a truthy secret exists,
regardless of the CHAP-enabled flag). -/
theorem claim_C2_chap_disabled_existing_secret (cfg : Config) (h : Helpers)
    (stateNodes : List (String × StorageNode)) (volume : Volume)
    (connector : Connector) (s : String) (tr : List Event) (ci : ConnInfo)
    (hchap : cfg.storwize_svc_iscsi_chap_enabled = false)
    (hs : h.get_chap_secret_for_host (resolve_host_step h connector).1 = some s)
    (hsne : s ≠ "")
    (hok : initialize_connection cfg h stateNodes volume connector = (tr, .ok ci)) :
    Event.warnChapDisabledSecretExists ∈ tr ∧
    (∀ x, Event.addChapSecret x ∉ tr) ∧
    (∀ x, Event.removeChapSecret x ∉ tr) ∧
    ci.data.auth_method = some "CHAP" ∧
    ci.data.auth_password = some s ∧
    ci.data.discovery_auth_password = some s := by
  obtain ⟨attrs, p, g, evs, props, hv, hpn, hgn, ht, hci, htr⟩ :=
    initialize_connection_ok_decomp cfg h stateNodes volume connector tr ci hok
  have hcs := chap_step_disabled_existing cfg h (resolve_host_step h connector).1 s
    hchap hs hsne
  simp only [hcs] at ht htr
  have htruthy : pyTruthy (some s) = true := by simp [pyTruthy, hsne]
  obtain ⟨ham, hap, hdap, hevs⟩ := init_try_block_ok _ _ _ _ _ _ _ _ _ _ _ ht
  simp only [htruthy, if_true] at ham hap hdap
  have hdata : ci.data = props := by rw [hci]
  refine ⟨?_, ?_, ?_, by rw [hdata, ham], by rw [hdata, hap], by rw [hdata, hdap]⟩
  · rw [htr]; simp
  · intro x
    rcases resolve_host_step_events h connector with h1 | h1 <;>
      rcases hevs with h2 | h2 <;>
      rw [htr, h1, h2] <;> simp
  · intro x
    rcases resolve_host_step_events h connector with h1 | h1 <;>
      rcases hevs with h2 | h2 <;>
      rw [htr, h1, h2] <;> simp

/-- Witness for amended claim C2 on the disabled-CHAP fixture run. -/
theorem claim_C2_chap_disabled_existing_secret_witness :
    Event.warnChapDisabledSecretExists ∈
      [Event.warnChapDisabledSecretExists, Event.mapVolToHost "V1" "h1" true] ∧
    Event.addChapSecret "h1" ∉
      [Event.warnChapDisabledSecretExists, Event.mapVolToHost "V1" "h1" true] ∧
    ciC2.data.auth_password = some "s" := by
  obtain ⟨h1, h2, -, -, h5, -⟩ := claim_C2_chap_disabled_existing_secret
    cfgChapOff helpers1 [("1", node1)] vol1 conn1 "s"
    [Event.warnChapDisabledSecretExists, Event.mapVolToHost "V1" "h1" true]
    ciC2 rfl rfl (by simp) rfl
  exact ⟨h1, h2 "h1", h5⟩

end StorwizeISCSI
